import Mathlib

/-!
Verification of the orbit-prediction and caching worker (`src/worker.py`).

Shallow embedding conventions:
* Instants are rationals (seconds relative to an arbitrary UTC epoch); the
  source stores them as `datetime` values with microsecond resolution and
  serialises them with `isoformat()`, an injective, strictly monotone
  encoding, so ordering and equality of timestamps transfer verbatim.
* Floating-point latitude/longitude/altitude values are carried opaquely as
  rationals: no theorem below computes with them, they are only moved around.
* The external propagation library (`skyfield`: `EarthSatellite.at(t).subpoint()`)
  is abstracted as an oracle `prop : ℚ → Option GeoPos` for a fixed element
  set; `none` models the per-sample exception caught at worker.py lines 123-125.
* Python exceptions that are caught by the source are modelled as `Option`
  results of the corresponding oracles.
-/

namespace Worker

/-- Global constant `PREDICT_SECONDS = 90 * 60` (worker.py line 12). -/
def PREDICT_SECONDS : ℕ := 90 * 60

/-- Global constant `LOOKBACK_SECONDS = 5 * 60` (worker.py line 13). -/
def LOOKBACK_SECONDS : ℕ := 5 * 60

/-- Global constant `SAMPLE_INTERVAL = 30` (worker.py line 14). -/
def SAMPLE_INTERVAL : ℕ := 30

/-- Global constant `CACHE_TTL_SECONDS = 60` (worker.py line 16). -/
def CACHE_TTL_SECONDS : ℕ := 60

/-- Geodetic subpoint returned by one propagation call:
`sub.latitude.degrees`, `sub.longitude.degrees`, `sub.elevation.km`. -/
structure GeoPos where
  lat : ℚ
  lon : ℚ
  alt_km : ℚ
  deriving DecidableEq

/-- One entry of the `samples` list built at worker.py lines 117-122:
timestamp `t` plus the propagated geodetic coordinates. -/
structure Sample where
  t : ℚ
  lat : ℚ
  lon : ℚ
  alt_km : ℚ
  deriving DecidableEq

/-- Loop bound of `compute_future_samples`:
`n = int(total_duration // sample_interval) + 1` with
`total_duration = LOOKBACK_SECONDS + predict_seconds` (worker.py lines 104-105). -/
def nSamples (predict_seconds sample_interval : ℕ) : ℕ :=
  (LOOKBACK_SECONDS + predict_seconds) / sample_interval + 1

/-- Instant of the i-th sample:
`t_dt = start_time + timedelta(seconds=i * sample_interval)` with
`start_time = now_dt_utc - timedelta(seconds=LOOKBACK_SECONDS)`
(worker.py lines 103 and 110). -/
def sampleTime (now_dt_utc : ℚ) (sample_interval : ℕ) (i : ℕ) : ℚ :=
  now_dt_utc - (LOOKBACK_SECONDS : ℚ) + (i : ℚ) * (sample_interval : ℚ)

/-- Embedding of `compute_future_samples` (worker.py lines 93-127).
`prop` is the per-instant propagation of the element set built at line 107;
a `none` result models the exception caught at lines 123-125 (`continue`),
a `some` result is appended to `samples` (lines 117-122).  `now_dt_utc` is
the sampler's own clock read `datetime.now(timezone.utc)` at line 100. -/
def compute_future_samples (prop : ℚ → Option GeoPos) (now_dt_utc : ℚ)
    (predict_seconds sample_interval : ℕ) : List Sample :=
  let start_time : ℚ := now_dt_utc - (LOOKBACK_SECONDS : ℚ)
  let n : ℕ := nSamples predict_seconds sample_interval
  (List.range n).filterMap fun (i : ℕ) =>
    let t_dt : ℚ := start_time + (i : ℚ) * (sample_interval : ℚ)
    match prop t_dt with
    | some sub => some { t := t_dt, lat := sub.lat, lon := sub.lon, alt_km := sub.alt_km }
    | none => none

/-- The sample kept for a surviving instant `t`. -/
def mkSample (t : ℚ) (sub : GeoPos) : Sample :=
  { t := t, lat := sub.lat, lon := sub.lon, alt_km := sub.alt_km }

/-- Characterisation of the sampler as a `filterMap` over the sample index. -/
theorem compute_future_samples_eq (prop : ℚ → Option GeoPos) (now : ℚ)
    (predict_seconds sample_interval : ℕ) :
    compute_future_samples prop now predict_seconds sample_interval =
      (List.range (nSamples predict_seconds sample_interval)).filterMap fun i =>
        (prop (sampleTime now sample_interval i)).map
          (mkSample (sampleTime now sample_interval i)) := by
  simp only [compute_future_samples, sampleTime, mkSample]
  refine congrArg
    (fun f => List.filterMap f (List.range (nSamples predict_seconds sample_interval))) ?_
  funext i
  cases prop (now - (LOOKBACK_SECONDS : ℚ) + (i : ℚ) * (sample_interval : ℚ)) <;> rfl

/-- A `filterMap` that succeeds everywhere is a `map`. -/
theorem filterMap_eq_map_of_some {α β : Type} (f : α → Option β) (g : α → β) :
    ∀ l : List α, (∀ x ∈ l, f x = some (g x)) → l.filterMap f = l.map g
  | [], _ => rfl
  | a :: l, h => by
    rw [List.filterMap_cons, h a (List.mem_cons_self a l), List.map_cons,
      filterMap_eq_map_of_some f g l fun x hx => h x (List.mem_cons_of_mem a hx)]

/-- A `filterMap` that fails somewhere shrinks the list strictly. -/
theorem length_filterMap_lt_of_none {α β : Type} (f : α → Option β) :
    ∀ l : List α, (∃ x ∈ l, f x = none) → (l.filterMap f).length < l.length
  | a :: l, h => by
    rcases h with ⟨x, hx, hfx⟩
    rcases List.mem_cons.1 hx with rfl | hx
    · rw [List.filterMap_cons, hfx, List.length_cons]
      exact Nat.lt_succ_of_le (List.length_filterMap_le f l)
    · rw [List.filterMap_cons, List.length_cons]
      cases hfa : f a with
      | none => exact Nat.lt_succ_of_lt (length_filterMap_lt_of_none f l ⟨x, hx, hfx⟩)
      | some b =>
        rw [List.length_cons]
        exact Nat.succ_lt_succ (length_filterMap_lt_of_none f l ⟨x, hx, hfx⟩)

/-- When the propagation succeeds at every sampled instant, the sampler is a
plain `map` over the sample indices. -/
theorem compute_future_samples_all_some (prop : ℚ → Option GeoPos) (now : ℚ)
    (predict_seconds sample_interval : ℕ)
    (hall : ∀ i < nSamples predict_seconds sample_interval,
      (prop (sampleTime now sample_interval i)).isSome) :
    compute_future_samples prop now predict_seconds sample_interval =
      (List.range (nSamples predict_seconds sample_interval)).map fun i =>
        mkSample (sampleTime now sample_interval i)
          ((prop (sampleTime now sample_interval i)).getD
            { lat := 0, lon := 0, alt_km := 0 }) := by
  rw [compute_future_samples_eq]
  refine filterMap_eq_map_of_some _ _ _ ?_
  intro x hx
  rcases Option.isSome_iff_exists.1 (hall x (List.mem_range.1 hx)) with ⟨sub, hsub⟩
  simp [hsub]

/-- C2: the sampler returns at most `n = (LOOKBACK_SECONDS + predict) / interval + 1`
samples; exactly `n`, at instants `start + i * interval`, when the propagation
never fails at a sampled instant; strictly fewer when some sampled instant
fails; and with the default constants the failure-free count is 191. -/
theorem sample_count_spec (prop : ℚ → Option GeoPos) (now : ℚ)
    (predict_seconds sample_interval : ℕ) (_hpos : 0 < sample_interval) :
    (compute_future_samples prop now predict_seconds sample_interval).length ≤
        nSamples predict_seconds sample_interval
    ∧ ((∀ i < nSamples predict_seconds sample_interval,
          (prop (sampleTime now sample_interval i)).isSome) →
        (compute_future_samples prop now predict_seconds sample_interval).map Sample.t =
          (List.range (nSamples predict_seconds sample_interval)).map
            (sampleTime now sample_interval))
    ∧ ((∃ i < nSamples predict_seconds sample_interval,
          prop (sampleTime now sample_interval i) = none) →
        (compute_future_samples prop now predict_seconds sample_interval).length <
          nSamples predict_seconds sample_interval)
    ∧ nSamples PREDICT_SECONDS SAMPLE_INTERVAL = 191 := by
  rw [compute_future_samples_eq]
  refine ⟨?_, ?_, ?_, rfl⟩
  · calc ((List.range (nSamples predict_seconds sample_interval)).filterMap fun i =>
            (prop (sampleTime now sample_interval i)).map
              (mkSample (sampleTime now sample_interval i))).length
        ≤ (List.range (nSamples predict_seconds sample_interval)).length :=
          List.length_filterMap_le _ _
      _ = nSamples predict_seconds sample_interval := List.length_range _
  · intro hall
    rw [← compute_future_samples_eq,
      compute_future_samples_all_some prop now predict_seconds sample_interval hall,
      List.map_map]
    rfl
  · rintro ⟨i, hi, hnone⟩
    calc ((List.range (nSamples predict_seconds sample_interval)).filterMap fun i =>
            (prop (sampleTime now sample_interval i)).map
              (mkSample (sampleTime now sample_interval i))).length
        < (List.range (nSamples predict_seconds sample_interval)).length := by
          refine length_filterMap_lt_of_none _ _ ⟨i, List.mem_range.2 hi, ?_⟩
          rw [hnone]; rfl
      _ = nSamples predict_seconds sample_interval := List.length_range _

/-- C3: for every propagation-failure pattern the returned timestamps are
strictly increasing (hence duplicate-free), every gap between consecutive
surviving samples is a positive integer multiple of the sample interval, and
when no sample is dropped every consecutive gap is exactly the interval. -/
theorem sample_order_spec (prop : ℚ → Option GeoPos) (now : ℚ)
    (predict_seconds sample_interval : ℕ) (hpos : 0 < sample_interval) :
    ((compute_future_samples prop now predict_seconds sample_interval).map Sample.t).Pairwise
        (· < ·)
    ∧ List.Chain'
        (fun a b => ∃ k : ℕ, 0 < k ∧ b.t - a.t = (k : ℚ) * (sample_interval : ℚ))
        (compute_future_samples prop now predict_seconds sample_interval)
    ∧ ((∀ i < nSamples predict_seconds sample_interval,
          (prop (sampleTime now sample_interval i)).isSome) →
        List.Chain' (fun a b => b.t - a.t = (sample_interval : ℚ))
          (compute_future_samples prop now predict_seconds sample_interval)) := by
  have hsi : (0 : ℚ) < (sample_interval : ℚ) := by exact_mod_cast hpos
  have key : (compute_future_samples prop now predict_seconds sample_interval).Pairwise
      (fun a b => a.t < b.t ∧ ∃ k : ℕ, 0 < k ∧ b.t - a.t = (k : ℚ) * (sample_interval : ℚ)) := by
    rw [compute_future_samples_eq]
    refine List.Pairwise.filterMap _ ?_ (List.pairwise_lt_range _)
    intro i j hij b hb b' hb'
    rw [Option.mem_def] at hb hb'
    rcases Option.map_eq_some'.1 hb with ⟨sub, hsub, rfl⟩
    rcases Option.map_eq_some'.1 hb' with ⟨sub', hsub', rfl⟩
    have hij' : (i : ℚ) < (j : ℚ) := by exact_mod_cast hij
    have hmul := mul_lt_mul_of_pos_right hij' hsi
    constructor
    · simp only [mkSample, sampleTime]
      linarith
    · refine ⟨j - i, Nat.sub_pos_of_lt hij, ?_⟩
      have hcast : ((j - i : ℕ) : ℚ) = (j : ℚ) - (i : ℚ) := by
        push_cast [Nat.le_of_lt hij]
        ring
      simp only [mkSample, sampleTime]
      rw [hcast]
      ring
  refine ⟨?_, ?_, ?_⟩
  · exact List.pairwise_map.2 (key.imp fun h => h.1)
  · exact (key.imp fun h => h.2).chain'
  · intro hall
    rw [compute_future_samples_all_some prop now predict_seconds sample_interval hall,
      List.chain'_map]
    have hn : nSamples predict_seconds sample_interval =
        Nat.succ ((LOOKBACK_SECONDS + predict_seconds) / sample_interval) := rfl
    rw [hn, List.chain'_range_succ]
    intro m hm
    simp only [mkSample, sampleTime]
    push_cast
    ring

/-- Propagation oracle that fails exactly at the instant −300 (the window's
first sampled instant when `now = 0`) and succeeds everywhere else. -/
def propFirstFails : ℚ → Option GeoPos := fun t =>
  if t = -(300 : ℚ) then none else some { lat := 0, lon := 0, alt_km := 0 }

/-- Propagation oracle that succeeds at every instant. -/
def propAll : ℚ → Option GeoPos := fun _ => some { lat := 0, lon := 0, alt_km := 0 }

/-- C1 counterexample: with the default constants, `now = 0` and an element
set whose propagation fails at the window's first instant, the first returned
sample timestamp is −270, not `now − LOOKBACK_SECONDS = −300`: the claim's
unconditional first-timestamp equation fails for this element set. -/
theorem sample_window_start_counterexample :
    ¬ ((compute_future_samples propFirstFails 0 PREDICT_SECONDS SAMPLE_INTERVAL).head?.map
        Sample.t = some ((0 : ℚ) - (LOOKBACK_SECONDS : ℚ))) := by
  have hT0 : sampleTime 0 SAMPLE_INTERVAL 0 = -(300 : ℚ) := by
    norm_num [sampleTime, LOOKBACK_SECONDS, SAMPLE_INTERVAL]
  have hT1 : sampleTime 0 SAMPLE_INTERVAL 1 = -(270 : ℚ) := by
    norm_num [sampleTime, LOOKBACK_SECONDS, SAMPLE_INTERVAL]
  have hF0 : (propFirstFails (sampleTime 0 SAMPLE_INTERVAL 0)).map
      (mkSample (sampleTime 0 SAMPLE_INTERVAL 0)) = none := by
    rw [hT0]
    simp [propFirstFails]
  have hF1 : (propFirstFails (sampleTime 0 SAMPLE_INTERVAL 1)).map
      (mkSample (sampleTime 0 SAMPLE_INTERVAL 1)) =
      some (mkSample (-(270 : ℚ)) { lat := 0, lon := 0, alt_km := 0 }) := by
    rw [hT1]
    norm_num [propFirstFails, mkSample]
  have hhead : (compute_future_samples propFirstFails 0 PREDICT_SECONDS
      SAMPLE_INTERVAL).head?.map Sample.t = some (-(270 : ℚ)) := by
    rw [compute_future_samples_eq,
      show nSamples PREDICT_SECONDS SAMPLE_INTERVAL = 191 from rfl,
      List.range_eq_range',
      show (191 : ℕ) = 190 + 1 from rfl, List.range'_succ, List.filterMap_cons, hF0,
      show (190 : ℕ) = 189 + 1 from rfl, List.range'_succ, List.filterMap_cons,
      show ((0 : ℕ) + 1) = 1 from rfl, hF1]
    rfl
  rw [hhead]
  have hL : ((0 : ℚ) - (LOOKBACK_SECONDS : ℚ)) = -(300 : ℚ) := by
    norm_num [LOOKBACK_SECONDS]
  rw [hL]
  intro hcontra
  have := Option.some.inj hcontra
  norm_num at this

/-- C1 (amended): for every propagation oracle and every invocation instant
`now`, with the default constants, if the propagation succeeds at the first
and at the last sampled instants then the first returned timestamp is
`now − LOOKBACK_SECONDS` and the last returned timestamp is
`now + PREDICT_SECONDS`, which is at or after `now` — so the returned
sequence spans a window containing `now` regardless of how long the rest of
the cycle takes afterwards. -/
theorem sample_window_brackets_now (prop : ℚ → Option GeoPos) (now : ℚ)
    (h0 : (prop (sampleTime now SAMPLE_INTERVAL 0)).isSome)
    (hN : (prop (sampleTime now SAMPLE_INTERVAL 190)).isSome) :
    (compute_future_samples prop now PREDICT_SECONDS SAMPLE_INTERVAL).head?.map Sample.t =
        some (now - (LOOKBACK_SECONDS : ℚ))
    ∧ ∃ s : Sample,
        (compute_future_samples prop now PREDICT_SECONDS SAMPLE_INTERVAL).getLast? = some s
        ∧ s.t = now + (PREDICT_SECONDS : ℚ) ∧ now ≤ s.t := by
  rcases Option.isSome_iff_exists.1 h0 with ⟨sub0, hsub0⟩
  rcases Option.isSome_iff_exists.1 hN with ⟨subN, hsubN⟩
  have hn : nSamples PREDICT_SECONDS SAMPLE_INTERVAL = 191 := rfl
  have hT : (mkSample (sampleTime now SAMPLE_INTERVAL 190) subN).t =
      now + (PREDICT_SECONDS : ℚ) := by
    simp only [mkSample, sampleTime, LOOKBACK_SECONDS, PREDICT_SECONDS, SAMPLE_INTERVAL]
    push_cast
    ring
  constructor
  · rw [compute_future_samples_eq, hn, show (191 : ℕ) = 190 + 1 from rfl,
      List.range_succ_eq_map, List.filterMap_cons, hsub0]
    simp [mkSample, sampleTime]
  · have hsplit : compute_future_samples prop now PREDICT_SECONDS SAMPLE_INTERVAL =
        ((List.range 190).filterMap fun i =>
            (prop (sampleTime now SAMPLE_INTERVAL i)).map
              (mkSample (sampleTime now SAMPLE_INTERVAL i)))
          ++ [mkSample (sampleTime now SAMPLE_INTERVAL 190) subN] := by
      rw [compute_future_samples_eq, hn, show (191 : ℕ) = 190 + 1 from rfl, List.range_succ,
        List.filterMap_append]
      simp [hsubN]
    refine ⟨mkSample (sampleTime now SAMPLE_INTERVAL 190) subN, ?_, hT, ?_⟩
    · rw [hsplit]
      exact List.getLast?_concat _
    · rw [hT]
      have : (0 : ℚ) ≤ (PREDICT_SECONDS : ℚ) := by positivity
      linarith

/-- Witness for the amended C1 at `prop = propAll`, `now = 0`. -/
theorem sample_window_brackets_now_witness :
    ((propAll (sampleTime 0 SAMPLE_INTERVAL 0)).isSome
      ∧ (propAll (sampleTime 0 SAMPLE_INTERVAL 190)).isSome)
    ∧ ((compute_future_samples propAll 0 PREDICT_SECONDS SAMPLE_INTERVAL).head?.map Sample.t =
          some ((0 : ℚ) - (LOOKBACK_SECONDS : ℚ))
        ∧ ∃ s : Sample,
            (compute_future_samples propAll 0 PREDICT_SECONDS SAMPLE_INTERVAL).getLast? = some s
            ∧ s.t = (0 : ℚ) + (PREDICT_SECONDS : ℚ) ∧ (0 : ℚ) ≤ s.t) :=
  ⟨⟨rfl, rfl⟩, sample_window_brackets_now propAll 0 rfl rfl⟩

/-- Witness for C2 at `prop = propAll`, `now = 0` and the default constants. -/
theorem sample_count_spec_witness :
    0 < SAMPLE_INTERVAL
    ∧ ((compute_future_samples propAll 0 PREDICT_SECONDS SAMPLE_INTERVAL).length ≤
          nSamples PREDICT_SECONDS SAMPLE_INTERVAL
      ∧ ((∀ i < nSamples PREDICT_SECONDS SAMPLE_INTERVAL,
            (propAll (sampleTime 0 SAMPLE_INTERVAL i)).isSome) →
          (compute_future_samples propAll 0 PREDICT_SECONDS SAMPLE_INTERVAL).map Sample.t =
            (List.range (nSamples PREDICT_SECONDS SAMPLE_INTERVAL)).map
              (sampleTime 0 SAMPLE_INTERVAL))
      ∧ ((∃ i < nSamples PREDICT_SECONDS SAMPLE_INTERVAL,
            propAll (sampleTime 0 SAMPLE_INTERVAL i) = none) →
          (compute_future_samples propAll 0 PREDICT_SECONDS SAMPLE_INTERVAL).length <
            nSamples PREDICT_SECONDS SAMPLE_INTERVAL)
      ∧ nSamples PREDICT_SECONDS SAMPLE_INTERVAL = 191) :=
  ⟨by decide, sample_count_spec propAll 0 PREDICT_SECONDS SAMPLE_INTERVAL (by decide)⟩

/-- Witness for C3 at `prop = propAll`, `now = 0` and the default constants. -/
theorem sample_order_spec_witness :
    0 < SAMPLE_INTERVAL
    ∧ (((compute_future_samples propAll 0 PREDICT_SECONDS SAMPLE_INTERVAL).map Sample.t).Pairwise
          (· < ·)
      ∧ List.Chain'
          (fun a b => ∃ k : ℕ, 0 < k ∧ b.t - a.t = (k : ℚ) * (SAMPLE_INTERVAL : ℚ))
          (compute_future_samples propAll 0 PREDICT_SECONDS SAMPLE_INTERVAL)
      ∧ ((∀ i < nSamples PREDICT_SECONDS SAMPLE_INTERVAL,
            (propAll (sampleTime 0 SAMPLE_INTERVAL i)).isSome) →
          List.Chain' (fun a b => b.t - a.t = (SAMPLE_INTERVAL : ℚ))
            (compute_future_samples propAll 0 PREDICT_SECONDS SAMPLE_INTERVAL))) :=
  ⟨by decide, sample_order_spec propAll 0 PREDICT_SECONDS SAMPLE_INTERVAL (by decide)⟩

/-!
Embedding of the per-cycle orchestration `fetch_and_calculate`
(worker.py lines 185-284).  The external collaborators are oracles:
* `calc_pos line1 line2` models `calculate_satellite_position` (lines 66-90),
  whose internal `except` clause returns `None` on any failure;
* `samp line1 line2` models the call `compute_future_samples(...)` at line
  231 as observed at the call site: `none` models the exception caught at
  lines 233-235 (which resets `samples = []`), `some l` a normal return.
The row fetched per satellite (lines 196-211) and the two accumulators
`satellites_data` / `postgis_update_args` (lines 191-192) are modelled
verbatim.
-/

/-- One row of the element-repository query (worker.py lines 196-211). -/
structure SatRow where
  satellite_db_id : ℤ
  name : String
  norad_cat_id : ℤ
  line1 : String
  line2 : String
  deriving DecidableEq

/-- Result of `calculate_satellite_position` (worker.py lines 80-87):
ECI position triple and `(latitude, longitude, elevation)` geodetic triple. -/
structure PosData where
  eci_pos : ℚ × ℚ × ℚ
  geo_pos : ℚ × ℚ × ℚ
  deriving DecidableEq

/-- One entry appended to `satellites_data` (worker.py lines 237-246). -/
structure SatEntry where
  id : ℤ
  name : String
  norad_id : ℤ
  latitude : ℚ
  longitude : ℚ
  altitude : ℚ
  eci : ℚ × ℚ × ℚ
  samples : List Sample
  deriving DecidableEq

/-- One `(lon, lat, id)` triple appended to `postgis_update_args`
(worker.py lines 249-253). -/
abbrev PostgisArg : Type := ℚ × ℚ × ℤ

/-- Body of the per-satellite loop of `fetch_and_calculate`
(worker.py lines 221-253): `none` when the current-position fix failed
(`if not pos_data: continue`, lines 223-224), otherwise the
`satellites_data` entry and the `postgis_update_args` triple appended for
this satellite.  `(samp ...).getD []` is the `try/except` of lines 230-235:
a raising sampler yields `samples = []`. -/
def objectStep (calc_pos : String → String → Option PosData)
    (samp : String → String → Option (List Sample))
    (sat : SatRow) : Option (SatEntry × PostgisArg) :=
  match calc_pos sat.line1 sat.line2 with
  | none => none
  | some pos_data =>
    let samples := (samp sat.line1 sat.line2).getD []
    some
      ({ id := sat.satellite_db_id, name := sat.name, norad_id := sat.norad_cat_id,
         latitude := pos_data.geo_pos.1, longitude := pos_data.geo_pos.2.1,
         altitude := pos_data.geo_pos.2.2, eci := pos_data.eci_pos, samples := samples },
       (pos_data.geo_pos.2.1, pos_data.geo_pos.1, sat.satellite_db_id))

/-- The fan-out loop of `fetch_and_calculate` (worker.py lines 216-253),
returning the accumulated `(satellites_data, postgis_update_args)` pair.
The source schedules `calculate_satellite_position` on threads and awaits
them in fleet order; the collected per-object results are exactly those of
`objectStep` in fleet order. -/
def computeLoop (calc_pos : String → String → Option PosData)
    (samp : String → String → Option (List Sample)) :
    List SatRow → List SatEntry × List PostgisArg
  | [] => ([], [])
  | sat :: rest =>
    match objectStep calc_pos samp sat with
    | none => computeLoop calc_pos samp rest
    | some ea =>
      let tail := computeLoop calc_pos samp rest
      (ea.1 :: tail.1, ea.2 :: tail.2)

/-- Observable state of the two sinks: the Redis payload stored under
`CACHE_KEY` (`none` = key absent) and the `geopoint` column keyed by
satellite id. -/
structure WorldState where
  cache : Option (List SatEntry)
  geopoint : ℤ → Option (ℚ × ℚ)

/-- Effect of the `executemany` batch (worker.py lines 259-266): each
`(lon, lat, id)` triple sets the row `id` to the point `(lon, lat)`. -/
def applyGeoBatch (g : ℤ → Option (ℚ × ℚ)) (args : List PostgisArg) :
    ℤ → Option (ℚ × ℚ) :=
  args.foldl (fun acc a i => if i = a.2.2 then some (a.1, a.2.1) else acc i) g

/-- Outcome of the geospatial-persist block (worker.py lines 256-271).
`pool.acquire()` at line 257 sits outside the inner `try` of lines 258-271,
so its failure is not caught there: it escapes to the outer handler at lines
281-284 and aborts the cycle.  Only the `executemany` statement's failure is
caught locally (lines 268-271) and lets the cycle continue. -/
inductive GeoOutcome where
  | ok
  | writeFailed
  | acquireFailed
  deriving DecidableEq

/-- Embedding of one `fetch_and_calculate` cycle (worker.py lines 185-284)
as a transformer of the sink state.  `fetched` is the repository query
result, `none` modelling a fetch exception caught by the outer handler at
lines 281-284 (which leaves both sinks untouched); `redisConnected` is the
truthiness of the global `redis_client` (line 274); `geo` is the outcome of
the geospatial-persist block: `ok` applies the batch, `writeFailed` is the
`executemany` exception caught at lines 268-271 (the cycle continues),
`acquireFailed` is a `pool.acquire()` failure at line 257, which escapes the
inner `try` and aborts the cycle at the outer handler before the Redis
write.  The PostGIS block runs only when `postgis_update_args` is non-empty
(line 256), and the Redis write only when `redis_client` is set and
`satellites_data` is non-empty (line 274). -/
def fetch_and_calculate (calc_pos : String → String → Option PosData)
    (samp : String → String → Option (List Sample))
    (fetched : Option (List SatRow))
    (redisConnected : Bool) (geo : GeoOutcome)
    (st : WorldState) : WorldState :=
  match fetched with
  | none => st
  | some satellites =>
    let res := computeLoop calc_pos samp satellites
    let satellites_data := res.1
    let postgis_update_args := res.2
    let geoResult : Option WorldState :=
      if postgis_update_args.isEmpty then some st
      else
        match geo with
        | GeoOutcome.ok =>
          some { st with geopoint := applyGeoBatch st.geopoint postgis_update_args }
        | GeoOutcome.writeFailed => some st
        | GeoOutcome.acquireFailed => none
    match geoResult with
    | none => st
    | some st1 =>
      if redisConnected && !satellites_data.isEmpty then
        { st1 with cache := some satellites_data }
      else st1

/-- Concrete fleet row used by witnesses. -/
def rowA : SatRow :=
  { satellite_db_id := 1, name := "A", norad_cat_id := 101, line1 := "a1", line2 := "a2" }

/-- Concrete fleet row used by witnesses. -/
def rowB : SatRow :=
  { satellite_db_id := 2, name := "B", norad_cat_id := 102, line1 := "b1", line2 := "b2" }

/-- Concrete position fix used by witnesses. -/
def posDemo : PosData := { eci_pos := (1, 2, 3), geo_pos := (10, 20, 400) }

/-- Current-fix oracle that always succeeds with `posDemo`. -/
def calcGood : String → String → Option PosData := fun _ _ => some posDemo

/-- Current-fix oracle that fails exactly on `rowB`'s element set. -/
def calcBadB : String → String → Option PosData := fun l1 _ =>
  if l1 = "b1" then none else some posDemo

/-- Current-fix oracle that always fails. -/
def calcNone : String → String → Option PosData := fun _ _ => none

/-- Sampler oracle that always raises. -/
def sampNone : String → String → Option (List Sample) := fun _ _ => none

/-- Initial sink state used by witnesses: empty cache, empty geopoints. -/
def stDemo : WorldState := { cache := none, geopoint := fun _ => none }

/-- The fan-out loop distributes over list append. -/
theorem computeLoop_append (calc_pos : String → String → Option PosData)
    (samp : String → String → Option (List Sample)) :
    ∀ l1 l2 : List SatRow,
      computeLoop calc_pos samp (l1 ++ l2) =
        ((computeLoop calc_pos samp l1).1 ++ (computeLoop calc_pos samp l2).1,
         (computeLoop calc_pos samp l1).2 ++ (computeLoop calc_pos samp l2).2)
  | [], l2 => rfl
  | sat :: rest, l2 => by
    rw [List.cons_append]
    show computeLoop calc_pos samp (sat :: (rest ++ l2)) = _
    rw [computeLoop, computeLoop]
    cases objectStep calc_pos samp sat with
    | none => rw [computeLoop_append calc_pos samp rest l2]
    | some ea =>
      rw [computeLoop_append calc_pos samp rest l2]
      rfl

/-- The fan-out loop only looks at the oracles on the rows it visits. -/
theorem computeLoop_congr (calc_pos calc2 : String → String → Option PosData)
    (samp samp2 : String → String → Option (List Sample)) :
    ∀ l : List SatRow,
      (∀ r ∈ l, calc2 r.line1 r.line2 = calc_pos r.line1 r.line2
        ∧ samp2 r.line1 r.line2 = samp r.line1 r.line2) →
      computeLoop calc2 samp2 l = computeLoop calc_pos samp l
  | [], _ => rfl
  | sat :: rest, h => by
    have hsat := h sat (List.mem_cons_self sat rest)
    have hrest := computeLoop_congr calc_pos calc2 samp samp2 rest
      fun r hr => h r (List.mem_cons_of_mem sat hr)
    rw [computeLoop, computeLoop, hrest]
    have hstep : objectStep calc2 samp2 sat = objectStep calc_pos samp sat := by
      rw [objectStep, objectStep, hsat.1, hsat.2]
    rw [hstep]

/-- When every current fix fails, the loop accumulates nothing. -/
theorem computeLoop_all_none (calc_pos : String → String → Option PosData)
    (samp : String → String → Option (List Sample)) :
    ∀ l : List SatRow, (∀ r ∈ l, calc_pos r.line1 r.line2 = none) →
      computeLoop calc_pos samp l = ([], [])
  | [], _ => rfl
  | sat :: rest, h => by
    rw [computeLoop, objectStep, h sat (List.mem_cons_self sat rest)]
    exact computeLoop_all_none calc_pos samp rest
      fun r hr => h r (List.mem_cons_of_mem sat hr)

/-- One loop step prepends the row's own (possibly empty) contribution. -/
theorem computeLoop_cons (calc_pos : String → String → Option PosData)
    (samp : String → String → Option (List Sample)) (B : SatRow) (l : List SatRow) :
    computeLoop calc_pos samp (B :: l) =
      (((objectStep calc_pos samp B).map Prod.fst).toList ++ (computeLoop calc_pos samp l).1,
       ((objectStep calc_pos samp B).map Prod.snd).toList ++ (computeLoop calc_pos samp l).2) := by
  rw [computeLoop]
  cases objectStep calc_pos samp B with
  | none => rfl
  | some ea => rfl

/-- One successful current fix makes `satellites_data` non-empty. -/
theorem computeLoop_fst_ne_nil (calc_pos : String → String → Option PosData)
    (samp : String → String → Option (List Sample)) :
    ∀ l : List SatRow, ∀ r ∈ l, (calc_pos r.line1 r.line2).isSome →
      (computeLoop calc_pos samp l).1 ≠ []
  | sat :: rest, r, hr, hsome => by
    rcases List.mem_cons.1 hr with rfl | hr
    · rcases Option.isSome_iff_exists.1 hsome with ⟨pos_data, hpos⟩
      rw [computeLoop, objectStep, hpos]
      simp
    · rw [computeLoop]
      cases objectStep calc_pos samp sat with
      | none => exact computeLoop_fst_ne_nil calc_pos samp rest r hr hsome
      | some ea => simp

/-- C4: a satellite whose current-position fix fails contributes nothing to
the cycle output: deleting it from the fetched fleet leaves both
`satellites_data` and `postgis_update_args` unchanged. -/
theorem failed_fix_excluded (calc_pos : String → String → Option PosData)
    (samp : String → String → Option (List Sample))
    (l1 l2 : List SatRow) (sat : SatRow)
    (hfail : calc_pos sat.line1 sat.line2 = none) :
    computeLoop calc_pos samp (l1 ++ sat :: l2) = computeLoop calc_pos samp (l1 ++ l2) := by
  rw [computeLoop_append, computeLoop_append]
  have hmid : computeLoop calc_pos samp (sat :: l2) = computeLoop calc_pos samp l2 := by
    rw [computeLoop, objectStep, hfail]
  rw [hmid]

/-- Witness for C4: a fleet of two satellites where the second's fix fails. -/
theorem failed_fix_excluded_witness :
    calcBadB rowB.line1 rowB.line2 = none
    ∧ computeLoop calcBadB sampNone ([rowA] ++ rowB :: []) =
        computeLoop calcBadB sampNone ([rowA] ++ []) :=
  ⟨by simp [calcBadB, rowB],
   failed_fix_excluded calcBadB sampNone [rowA] [] rowB (by simp [calcBadB, rowB])⟩

/-- C5: no failure of one satellite B — of its current fix or of any of its
per-sample computations — changes any other satellite's result.  If two
oracle assignments agree on every row other than B (B's own fix and sampler
may differ arbitrarily between them: succeed, drop samples, or fail), then
under both assignments the cycle output decomposes as the other rows' output
— computed by the first assignment — with only B's own (possibly empty)
contribution inserted between them.  Every other satellite therefore appears
with data identical to the run where B succeeds, and no failure escapes the
fan-out loop (the loop is a total function). -/
theorem failure_isolated (calc_pos calc2 : String → String → Option PosData)
    (samp samp2 : String → String → Option (List Sample))
    (l1 l2 : List SatRow) (B : SatRow)
    (hagree : ∀ r ∈ l1 ++ l2, calc2 r.line1 r.line2 = calc_pos r.line1 r.line2
      ∧ samp2 r.line1 r.line2 = samp r.line1 r.line2) :
    computeLoop calc_pos samp (l1 ++ B :: l2) =
        ((computeLoop calc_pos samp l1).1
            ++ ((objectStep calc_pos samp B).map Prod.fst).toList
            ++ (computeLoop calc_pos samp l2).1,
         (computeLoop calc_pos samp l1).2
            ++ ((objectStep calc_pos samp B).map Prod.snd).toList
            ++ (computeLoop calc_pos samp l2).2)
    ∧ computeLoop calc2 samp2 (l1 ++ B :: l2) =
        ((computeLoop calc_pos samp l1).1
            ++ ((objectStep calc2 samp2 B).map Prod.fst).toList
            ++ (computeLoop calc_pos samp l2).1,
         (computeLoop calc_pos samp l1).2
            ++ ((objectStep calc2 samp2 B).map Prod.snd).toList
            ++ (computeLoop calc_pos samp l2).2) := by
  have hl1 : computeLoop calc2 samp2 l1 = computeLoop calc_pos samp l1 :=
    computeLoop_congr calc_pos calc2 samp samp2 l1
      fun r hr => hagree r (List.mem_append_left l2 hr)
  have hl2 : computeLoop calc2 samp2 l2 = computeLoop calc_pos samp l2 :=
    computeLoop_congr calc_pos calc2 samp samp2 l2
      fun r hr => hagree r (List.mem_append_right l1 hr)
  constructor
  · rw [computeLoop_append calc_pos samp l1 (B :: l2), computeLoop_cons]
    simp [List.append_assoc]
  · rw [computeLoop_append calc2 samp2 l1 (B :: l2), computeLoop_cons, hl1, hl2]
    simp [List.append_assoc]

/-- Witness for C5: fleet `[rowA, rowB]`; under `calcGood` both fixes
succeed, under `calcBadB` only B's fix fails; A's data is unchanged. -/
theorem failure_isolated_witness :
    (∀ r ∈ [rowA] ++ ([] : List SatRow),
        calcBadB r.line1 r.line2 = calcGood r.line1 r.line2
        ∧ sampNone r.line1 r.line2 = sampNone r.line1 r.line2)
    ∧ (computeLoop calcGood sampNone ([rowA] ++ rowB :: []) =
          ((computeLoop calcGood sampNone [rowA]).1
              ++ ((objectStep calcGood sampNone rowB).map Prod.fst).toList
              ++ (computeLoop calcGood sampNone ([] : List SatRow)).1,
           (computeLoop calcGood sampNone [rowA]).2
              ++ ((objectStep calcGood sampNone rowB).map Prod.snd).toList
              ++ (computeLoop calcGood sampNone ([] : List SatRow)).2)
      ∧ computeLoop calcBadB sampNone ([rowA] ++ rowB :: []) =
          ((computeLoop calcGood sampNone [rowA]).1
              ++ ((objectStep calcBadB sampNone rowB).map Prod.fst).toList
              ++ (computeLoop calcGood sampNone ([] : List SatRow)).1,
           (computeLoop calcGood sampNone [rowA]).2
              ++ ((objectStep calcBadB sampNone rowB).map Prod.snd).toList
              ++ (computeLoop calcGood sampNone ([] : List SatRow)).2)) := by
  have hagree : ∀ r ∈ [rowA] ++ ([] : List SatRow),
      calcBadB r.line1 r.line2 = calcGood r.line1 r.line2
      ∧ sampNone r.line1 r.line2 = sampNone r.line1 r.line2 := by
    intro r hr
    have hrA : r = rowA := by simpa using hr
    subst hrA
    exact ⟨by simp [calcBadB, calcGood, rowA], rfl⟩
  exact ⟨hagree, failure_isolated calcGood calcBadB sampNone sampNone [rowA] [] rowB hagree⟩

/-- C6: a cycle whose every current fix fails (in particular a cycle whose
repository query returned no rows) performs no cache write: the cache
payload after the cycle equals the payload before it. -/
theorem empty_cycle_preserves_cache (calc_pos : String → String → Option PosData)
    (samp : String → String → Option (List Sample)) (sats : List SatRow)
    (redisConnected : Bool) (geo : GeoOutcome) (st : WorldState)
    (hall : ∀ r ∈ sats, calc_pos r.line1 r.line2 = none) :
    (fetch_and_calculate calc_pos samp (some sats) redisConnected geo st).cache
      = st.cache := by
  simp only [fetch_and_calculate, computeLoop_all_none calc_pos samp sats hall]
  simp

/-- Witness for C6: one-satellite fleet whose fix always fails. -/
theorem empty_cycle_preserves_cache_witness :
    (∀ r ∈ [rowA], calcNone r.line1 r.line2 = none)
    ∧ (fetch_and_calculate calcNone sampNone (some [rowA]) true GeoOutcome.ok stDemo).cache
        = stDemo.cache :=
  ⟨fun _ _ => rfl,
   empty_cycle_preserves_cache calcNone sampNone [rowA] true GeoOutcome.ok stDemo
     fun _ _ => rfl⟩

/-- C8 counterexample: a geospatial-persist failure that does prevent the
cache publish.  `pool.acquire()` at worker.py line 257 sits outside the
inner `try` of lines 258-271, so its failure escapes to the outer handler at
lines 281-284 and aborts the cycle before the Redis write at line 276: with
one successful fix and an acquire failure, the cache stays at its prior
value (here: absent) instead of receiving the `satellites_data` payload. -/
theorem geo_acquire_failure_blocks_publish :
    (fetch_and_calculate calcGood sampNone (some [rowA]) true GeoOutcome.acquireFailed
        stDemo).cache ≠ some (computeLoop calcGood sampNone [rowA]).1 := by
  have hcache : (fetch_and_calculate calcGood sampNone (some [rowA]) true
      GeoOutcome.acquireFailed stDemo).cache = none := rfl
  rw [hcache]
  simp

/-- C8 (amended): for a cycle with at least one successful fix, a failure of
the geospatial batch statement — the `executemany` call, whose exception is
caught at worker.py lines 268-271 — does not prevent the cache publish: the
cache ends up holding the full `satellites_data` payload, identical to the
payload written when the geospatial batch succeeds.  (A failure to acquire
the store connection at line 257 instead aborts the cycle before the
publish; see the counterexample.) -/
theorem geo_failure_cache_publishes (calc_pos : String → String → Option PosData)
    (samp : String → String → Option (List Sample)) (sats : List SatRow)
    (st : WorldState) (r : SatRow) (hr : r ∈ sats)
    (hsucc : (calc_pos r.line1 r.line2).isSome) :
    (fetch_and_calculate calc_pos samp (some sats) true GeoOutcome.writeFailed st).cache =
        some (computeLoop calc_pos samp sats).1
    ∧ (fetch_and_calculate calc_pos samp (some sats) true GeoOutcome.ok st).cache =
        some (computeLoop calc_pos samp sats).1 := by
  have hne := computeLoop_fst_ne_nil calc_pos samp sats r hr hsucc
  have hempty : (computeLoop calc_pos samp sats).1.isEmpty = false := by
    cases h : (computeLoop calc_pos samp sats).1 with
    | nil => exact absurd h hne
    | cons a l => rfl
  constructor <;>
  · simp only [fetch_and_calculate]
    cases hargs : (computeLoop calc_pos samp sats).2.isEmpty <;> simp [hempty]

/-- Witness for C8: one-satellite fleet with an always-successful fix. -/
theorem geo_failure_cache_publishes_witness :
    (rowA ∈ [rowA] ∧ (calcGood rowA.line1 rowA.line2).isSome)
    ∧ ((fetch_and_calculate calcGood sampNone (some [rowA]) true GeoOutcome.writeFailed
          stDemo).cache = some (computeLoop calcGood sampNone [rowA]).1
      ∧ (fetch_and_calculate calcGood sampNone (some [rowA]) true GeoOutcome.ok
          stDemo).cache = some (computeLoop calcGood sampNone [rowA]).1) :=
  ⟨⟨List.mem_singleton.2 rfl, rfl⟩,
   geo_failure_cache_publishes calcGood sampNone [rowA] stDemo rowA
     (List.mem_singleton.2 rfl) rfl⟩

/-- C9: a satellite whose current fix succeeds but whose sampler raises (or
returns zero samples) still appears in the cycle output, with `samples = []`
and every other field intact. -/
theorem zero_samples_object_kept (calc_pos : String → String → Option PosData)
    (samp : String → String → Option (List Sample)) (sat : SatRow)
    (pos_data : PosData) (l1 l2 : List SatRow)
    (hfix : calc_pos sat.line1 sat.line2 = some pos_data)
    (hsamp : samp sat.line1 sat.line2 = none ∨ samp sat.line1 sat.line2 = some []) :
    objectStep calc_pos samp sat = some
      ({ id := sat.satellite_db_id, name := sat.name, norad_id := sat.norad_cat_id,
         latitude := pos_data.geo_pos.1, longitude := pos_data.geo_pos.2.1,
         altitude := pos_data.geo_pos.2.2, eci := pos_data.eci_pos, samples := [] },
       (pos_data.geo_pos.2.1, pos_data.geo_pos.1, sat.satellite_db_id))
    ∧ ({ id := sat.satellite_db_id, name := sat.name, norad_id := sat.norad_cat_id,
         latitude := pos_data.geo_pos.1, longitude := pos_data.geo_pos.2.1,
         altitude := pos_data.geo_pos.2.2, eci := pos_data.eci_pos,
         samples := [] } : SatEntry)
        ∈ (computeLoop calc_pos samp (l1 ++ sat :: l2)).1 := by
  have hget : (samp sat.line1 sat.line2).getD [] = [] := by
    rcases hsamp with h | h <;> rw [h] <;> rfl
  have hstep : objectStep calc_pos samp sat = some
      ({ id := sat.satellite_db_id, name := sat.name, norad_id := sat.norad_cat_id,
         latitude := pos_data.geo_pos.1, longitude := pos_data.geo_pos.2.1,
         altitude := pos_data.geo_pos.2.2, eci := pos_data.eci_pos, samples := [] },
       (pos_data.geo_pos.2.1, pos_data.geo_pos.1, sat.satellite_db_id)) := by
    simp only [objectStep, hfix, hget]
  refine ⟨hstep, ?_⟩
  rw [computeLoop_append]
  have hmid : computeLoop calc_pos samp (sat :: l2) =
      (({ id := sat.satellite_db_id, name := sat.name, norad_id := sat.norad_cat_id,
          latitude := pos_data.geo_pos.1, longitude := pos_data.geo_pos.2.1,
          altitude := pos_data.geo_pos.2.2, eci := pos_data.eci_pos,
          samples := [] } : SatEntry) :: (computeLoop calc_pos samp l2).1,
       (pos_data.geo_pos.2.1, pos_data.geo_pos.1, sat.satellite_db_id) ::
          (computeLoop calc_pos samp l2).2) := by
    rw [computeLoop, hstep]
  rw [hmid]
  exact List.mem_append_right _ (List.mem_cons_self _ _)

/-- Witness for C9: `rowA` with a successful fix and a raising sampler. -/
theorem zero_samples_object_kept_witness :
    (calcGood rowA.line1 rowA.line2 = some posDemo
      ∧ (sampNone rowA.line1 rowA.line2 = none
        ∨ sampNone rowA.line1 rowA.line2 = some []))
    ∧ (objectStep calcGood sampNone rowA = some
        ({ id := rowA.satellite_db_id, name := rowA.name, norad_id := rowA.norad_cat_id,
           latitude := posDemo.geo_pos.1, longitude := posDemo.geo_pos.2.1,
           altitude := posDemo.geo_pos.2.2, eci := posDemo.eci_pos, samples := [] },
         (posDemo.geo_pos.2.1, posDemo.geo_pos.1, rowA.satellite_db_id))
      ∧ ({ id := rowA.satellite_db_id, name := rowA.name, norad_id := rowA.norad_cat_id,
           latitude := posDemo.geo_pos.1, longitude := posDemo.geo_pos.2.1,
           altitude := posDemo.geo_pos.2.2, eci := posDemo.eci_pos,
           samples := [] } : SatEntry)
          ∈ (computeLoop calcGood sampNone ([] ++ rowA :: [])).1) :=
  ⟨⟨rfl, Or.inl rfl⟩,
   zero_samples_object_kept calcGood sampNone rowA posDemo [] [] rfl (Or.inl rfl)⟩

/-- C10: within one cycle the geospatial batch is exactly the image of the
cache payload: entry by entry, `postgis_update_args` holds the triple
`(longitude, latitude, id)` of the corresponding `satellites_data` entry,
so the two sinks never diverge in membership or coordinates. -/
theorem sinks_consistent (calc_pos : String → String → Option PosData)
    (samp : String → String → Option (List Sample)) (sats : List SatRow) :
    (computeLoop calc_pos samp sats).2 =
      (computeLoop calc_pos samp sats).1.map fun e => (e.longitude, e.latitude, e.id) := by
  induction sats with
  | nil => rfl
  | cons sat rest ih =>
    cases hc : calc_pos sat.line1 sat.line2 with
    | none => simp [computeLoop, objectStep, hc, ih]
    | some pos => simp [computeLoop, objectStep, hc, ih]

end Worker
